import Mathlib

/-!
Shallow embedding of the Scheduling & Notification Delivery Engine of the
`missions` repository (src/core/scheduler.py, src/services/notification_service.py,
src/models/notification.py, src/models/user.py, src/models/theme_week.py).

Timestamps are modelled as seconds since the UNIX epoch, in UTC, as `Nat`.
`datetime.utcnow()` values flow in as explicit `now` parameters.  SQLAlchemy
sessions are modelled as explicit store values; per-call exception outcomes of
the Telegram sender and of the mark-as-sent write are modelled as Boolean
oracles keyed by notification id.
-/

namespace Missions

/-- Seconds since the UNIX epoch, UTC. -/
abbrev Time := Nat

/-- `datetime.hour` of a UTC timestamp. -/
def hourOf (t : Time) : Nat := t % 86400 / 3600

/-- `datetime.minute` of a UTC timestamp. -/
def minuteOf (t : Time) : Nat := t % 3600 / 60

/-- UTC calendar day index (days since the epoch). -/
def dayOf (t : Time) : Nat := t / 86400

/-- Python `date.weekday()`: Monday = 0.  Jan 1 1970 was a Thursday (= 3). -/
def pyWeekday (t : Time) : Nat := (dayOf t + 3) % 7

/-- Build a timestamp from a day index and an in-day time of `h:m:s`. -/
def mkTime (d h m s : Nat) : Time := d * 86400 + h * 3600 + m * 60 + s

/-- Two timestamps fall on the same UTC calendar day. -/
def sameDay (t1 t2 : Time) : Prop := dayOf t1 = dayOf t2

instance (t1 t2 : Time) : Decidable (sameDay t1 t2) := by
  unfold sameDay; infer_instance

/-- `models/notification.py`: class `Notification` (columns the engine uses).
`sent` is a nullable Boolean column (the retention cleanup writes NULL into
it), hence `Option Bool`; its insert default is `False`. -/
structure Notification where
  id : Nat
  user_id : Nat
  notification_type : String
  title : Option String
  message : String
  scheduled_time : Time
  sent : Option Bool
  sent_at : Option Time
deriving Repr, DecidableEq

/-- `models/notification.py`: class `UserNotificationSettings` (flag columns). -/
structure UserNotificationSettings where
  enabled : Bool
  daily_reminders : Bool
  weekly_stats : Bool
  mission_notifications : Bool
  pair_notifications : Bool
deriving Repr, DecidableEq

/-- `models/user.py`: class `User` (columns the scheduler touches). -/
structure User where
  user_id : Nat
  charges : Nat
  level : Nat
  last_charge_reset : Time
deriving Repr, DecidableEq

/-- `models/theme_week.py`: class `ThemeWeek` (columns the switch task reads). -/
structure ThemeWeek where
  id : Nat
  theme_name : String
  description : Option String
  start_date : Time
  end_date : Time
  tags : List String
  active : Bool
deriving Repr, DecidableEq

/-- The notifications table plus its autoincrement counter. -/
structure NotifStore where
  notifications : List Notification
  nextId : Nat
deriving Repr, DecidableEq

/-- `NotificationService.schedule_notification`: inserts a row with
`scheduled_time = utcnow() + delay_minutes`, `sent` defaulting to `False`
and `sent_at` to NULL. -/
def scheduleNotification (now : Time) (st : NotifStore) (uid : Nat)
    (ntype : String) (msg : String) (title : Option String)
    (delay_minutes : Nat) : NotifStore :=
  { notifications := st.notifications ++
      [{ id := st.nextId, user_id := uid, notification_type := ntype,
         title := title, message := msg,
         scheduled_time := now + delay_minutes * 60,
         sent := some false, sent_at := none }],
    nextId := st.nextId + 1 }

/-- `NotificationService.get_due_notifications`: rows with
`sent == False ∧ scheduled_time <= utcnow()` (SQL equality, so NULL `sent`
rows do not match). -/
def getDueNotifications (now : Time) (ns : List Notification) : List Notification :=
  ns.filter (fun n => n.sent == some false && decide (n.scheduled_time ≤ now))

/-- `NotificationService.mark_notification_as_sent`: UPDATE by id setting
`sent = True, sent_at = utcnow()` in one write. -/
def markNotificationAsSent (now : Time) (nid : Nat)
    (ns : List Notification) : List Notification :=
  ns.map (fun n => if n.id = nid then
    { n with sent := some true, sent_at := some now } else n)

/-- `NotificationService.cleanup_old_notifications`: UPDATE rows with
`sent == True ∧ sent_at <= old_date`, setting `sent = None`
(SQL three-valued logic: a NULL `sent_at` never satisfies the comparison). -/
def cleanupOldNotifications (old_date : Time)
    (ns : List Notification) : List Notification :=
  ns.map (fun n =>
    if n.sent == some true &&
       (match n.sent_at with
        | some t => decide (t ≤ old_date)
        | none => false) then
      { n with sent := none } else n)

/-- `NotificationScheduler._format_notification`:
`title = notification.title or "Уведомление"` (Python `or`, so an absent or
empty title falls back to the default), then `f"<b>{title}</b>\n\n{message}"`. -/
def formatNotification (n : Notification) : String :=
  let title := match n.title with
    | none => "Уведомление"
    | some s => if s = "" then "Уведомление" else s
  "<b>" ++ title ++ "</b>\n\n" ++ n.message

/-- `NotificationScheduler._reset_charges_for_all`: unconditional bulk
UPDATE of every user: `charges = 3, last_charge_reset = datetime.utcnow()`. -/
def resetChargesForAll (now : Time) (users : List User) : List User :=
  users.map (fun u => { u with charges := 3, last_charge_reset := now })

/-- The daily trigger test from `run_daily_tasks` (and
`run_theme_week_switch`): `now.hour == 0 and now.minute < 5`. -/
def isDailyTriggerWindow (t : Time) : Bool :=
  hourOf t == 0 && decide (minuteOf t < 5)

/-- The weekly trigger test from `run_weekly_tasks`:
`now.weekday() == 0 and now.hour == 0 and now.minute < 5`. -/
def isWeeklyTriggerWindow (t : Time) : Bool :=
  pyWeekday t == 0 && hourOf t == 0 && decide (minuteOf t < 5)

/-- Shorthand for the write `mark_notification_as_sent` performs on one row. -/
def setSent (now : Time) (m : Notification) : Notification :=
  { m with sent := some true, sent_at := some now }

/-- One per-notification step of the dispatch loop in
`run_notification_sender` (scheduler.py lines 80–104): the send call and the
mark-as-sent call are both inside the per-notification `try`; `sendOk`/`markOk`
tell, per notification id, whether each call raises.  A successful mark also
commits (`mark_notification_as_sent` ends in `session.commit()`), so the
second component counts commits. -/
def dispatchStep (now : Time) (sendOk markOk : Nat → Bool)
    (acc : List Notification × Nat) (nid : Nat) : List Notification × Nat :=
  if sendOk nid then
    if markOk nid then (markNotificationAsSent now nid acc.1, acc.2 + 1)
    else acc
  else acc

/-- One iteration of `NotificationScheduler.run_notification_sender`
(scheduler.py lines 71–106): query the due notifications once, loop over them
with per-notification error isolation, then — only when the due list was
non-empty — perform the final `session.commit()` (one more commit). -/
def runNotificationSenderIteration (now : Time) (sendOk markOk : Nat → Bool)
    (ns : List Notification) : List Notification × Nat :=
  let due := getDueNotifications now ns
  if due.isEmpty then (ns, 0)
  else
    let r := due.foldl (fun acc n => dispatchStep now sendOk markOk acc n.id) (ns, 0)
    (r.1, r.2 + 1)

/-- The reminder message built in `NotificationService.send_daily_reminder`. -/
def dailyReminderMessage (u : User) : String :=
  "🔔 Привет! У вас " ++ toString u.charges ++
    "/3 зарядов на сегодня. Не забудьте получить миссию командой /mission!"

/-- `NotificationService.send_daily_reminder`: re-checks the settings flags,
loads the user row, and only when `user.charges > 0` schedules a
`daily_reminder` notification. -/
def sendDailyReminder (now : Time) (settings : Nat → UserNotificationSettings)
    (users : List User) (st : NotifStore) (uid : Nat) : NotifStore :=
  let s := settings uid
  if !s.enabled || !s.daily_reminders then st
  else
    match users.find? (fun u => u.user_id == uid) with
    | some u =>
      if 0 < u.charges then
        scheduleNotification now st uid "daily_reminder" (dailyReminderMessage u)
          (some "Напоминание о миссии") 0
      else st
    | none => st

/-- `NotificationScheduler._send_daily_reminders_to_all`: loop over all users,
skip those whose settings disable notifications or daily reminders, delegate
to `send_daily_reminder` for the rest (per-user errors are swallowed). -/
def sendDailyRemindersToAll (now : Time) (settings : Nat → UserNotificationSettings)
    (users : List User) (st : NotifStore) : NotifStore :=
  users.foldl (fun acc u =>
    let s := settings u.user_id
    if !s.enabled || !s.daily_reminders then acc
    else sendDailyReminder now settings users acc u.user_id) st

/-- The unit of work of `NotificationScheduler.run_daily_tasks` (lines
127–129): `_send_daily_reminders_to_all` runs FIRST, then
`_reset_charges_for_all` — the reminder fan-out sees the pre-reset charges. -/
def runDailyTasksUnit (now : Time) (settings : Nat → UserNotificationSettings)
    (users : List User) (st : NotifStore) : List User × NotifStore :=
  let st1 := sendDailyRemindersToAll now settings users st
  (resetChargesForAll now users, st1)

/-- The active-week lookup of `run_theme_week_switch` (lines 203–212):
`SELECT ... WHERE active ∧ start_date <= now ∧ end_date >= now
ORDER BY start_date DESC` followed by `scalar_one_or_none()`, which returns
the row when there is exactly one, `None` when there is none, and raises
`MultipleResultsFound` when the filter matches two or more rows. -/
def findActiveThemeWeek (now : Time) (weeks : List ThemeWeek) :
    Except Unit (Option ThemeWeek) :=
  match weeks.filter (fun w =>
      w.active && decide (w.start_date ≤ now) && decide (now ≤ w.end_date)) with
  | [] => Except.ok none
  | [w] => Except.ok (some w)
  | _ => Except.error ()

/-- The broadcast message built in `run_theme_week_switch` (lines 234–242). -/
def themeWeekMessage (w : ThemeWeek) : String :=
  let tags_str := if w.tags.isEmpty then "разное" else String.intercalate ", " w.tags
  let descr := match w.description with
    | none => "Выполняйте миссии в этой тематике!"
    | some d => if d = "" then "Выполняйте миссии в этой тематике!" else d
  "🎨 <b>Новая тематическая неделя!</b>\n\n<b>" ++ w.theme_name ++ "</b>\n\n" ++
    descr ++ "\n\n🏷 Теги: " ++ tags_str ++
    "\n🎁 Бонус: доп. очки за миссии на тему недели!"

/-- The unit of work of `NotificationScheduler.run_theme_week_switch` (lines
201–259): look up the active theme week; on `MultipleResultsFound` the outer
`except` swallows the error and nothing is written; with no active week,
no-op; with one, enqueue a `theme_week_start` notification (spec kind
`campaign_start`) for every user whose settings have `enabled` set. -/
def runThemeWeekSwitchUnit (now : Time) (settings : Nat → UserNotificationSettings)
    (users : List User) (weeks : List ThemeWeek) (st : NotifStore) : NotifStore :=
  match findActiveThemeWeek now weeks with
  | Except.error _ => st
  | Except.ok none => st
  | Except.ok (some w) =>
      users.foldl (fun acc u =>
        if !(settings u.user_id).enabled then acc
        else scheduleNotification now acc u.user_id "theme_week_start"
          (themeWeekMessage w) (some ("🎨 " ++ w.theme_name)) 0) st

/-- The statistics message built in `NotificationService.send_weekly_stats`. -/
def weeklyStatsMessage (week_completed : Nat) (u : User) : String :=
  "\n📊 *Еженедельная статистика*\n\n🎯 Выполнено миссий за неделю: " ++
    toString week_completed ++ "\n⭐ Очков за неделю: " ++
    toString (week_completed * 10) ++ "\n👤 Уровень: " ++ toString u.level ++
    "\n⚡ Зарядов осталось: " ++ toString u.charges ++
    "/3\n\nПродолжайте в том же духе!\n"

/-- `NotificationService.send_weekly_stats`: re-checks the settings flags,
counts the week's completions (a parameter here), loads the user row and
schedules a `weekly_stats` notification with a one-minute delay. -/
def sendWeeklyStats (now : Time) (settings : Nat → UserNotificationSettings)
    (weekCompleted : Nat → Nat) (users : List User) (st : NotifStore)
    (uid : Nat) : NotifStore :=
  let s := settings uid
  if !s.enabled || !s.weekly_stats then st
  else
    match users.find? (fun u => u.user_id == uid) with
    | some u =>
        scheduleNotification now st uid "weekly_stats"
          (weeklyStatsMessage (weekCompleted uid) u)
          (some "Еженедельная статистика") 1
    | none => st

/-- `NotificationScheduler._send_weekly_stats_to_all`: loop over all users,
skip those with notifications or weekly stats disabled, delegate to
`send_weekly_stats`. -/
def sendWeeklyStatsToAll (now : Time) (settings : Nat → UserNotificationSettings)
    (weekCompleted : Nat → Nat) (users : List User) (st : NotifStore) : NotifStore :=
  users.foldl (fun acc u =>
    let s := settings u.user_id
    if !s.enabled || !s.weekly_stats then acc
    else sendWeeklyStats now settings weekCompleted users acc u.user_id) st

/-- One check of the `run_weekly_tasks` loop (lines 145–158): when the weekly
window test passes, run the unit of work and sleep 300 s; otherwise sleep
3600 s.  The first component is the time of the next check. -/
def runWeeklyTasksStep (settings : Nat → UserNotificationSettings)
    (weekCompleted : Nat → Nat) (users : List User)
    (p : Time × NotifStore) : Time × NotifStore :=
  if isWeeklyTriggerWindow p.1 then
    (p.1 + 300, sendWeeklyStatsToAll p.1 settings weekCompleted users p.2)
  else (p.1 + 3600, p.2)

/-- `n` consecutive checks of the `run_weekly_tasks` loop. -/
def runWeeklyTasksIter (settings : Nat → UserNotificationSettings)
    (weekCompleted : Nat → Nat) (users : List User) :
    Nat → Time × NotifStore → Time × NotifStore
  | 0, p => p
  | n + 1, p => runWeeklyTasksIter settings weekCompleted users n
      (runWeeklyTasksStep settings weekCompleted users p)

/-! ## Helper lemmas -/

lemma hourOf_mkTime (d h m s : Nat) (hh : h < 24) (hm : m < 60) (hs : s < 60) :
    hourOf (mkTime d h m s) = h := by
  unfold hourOf mkTime; omega

lemma minuteOf_mkTime (d h m s : Nat) (_hh : h < 24) (hm : m < 60) (hs : s < 60) :
    minuteOf (mkTime d h m s) = m := by
  unfold minuteOf mkTime; omega

lemma setSent_idem (now : Time) (m : Notification) :
    setSent now (setSent now m) = setSent now m := rfl

lemma setSent_id (now : Time) (m : Notification) : (setSent now m).id = m.id := rfl

lemma markNotificationAsSent_eq_map (now : Time) (nid : Nat) (ns : List Notification) :
    markNotificationAsSent now nid ns
      = ns.map (fun m => if m.id = nid then setSent now m else m) := rfl

/-- The condition under which the dispatch loop both sends and marks a
notification: the per-id send call and mark call both succeed. -/
def dispatchOk (sendOk markOk : Nat → Bool) (d : Notification) : Bool :=
  sendOk d.id && markOk d.id

/-- Closed form of the per-due-notification fold inside one dispatch
iteration: the store ends with exactly the due-and-successful ids marked,
and one commit is counted per successfully marked notification. -/
lemma dispatch_foldl_char (now : Time) (sendOk markOk : Nat → Bool)
    (due : List Notification) : ∀ (ns : List Notification) (c : Nat),
    due.foldl (fun acc n => dispatchStep now sendOk markOk acc n.id) (ns, c)
      = (ns.map (fun m =>
          if (due.filter (dispatchOk sendOk markOk)).any (fun d => d.id == m.id)
          then setSent now m else m),
        c + (due.filter (dispatchOk sendOk markOk)).length) := by
  induction due with
  | nil => intro ns c; simp
  | cons d rest ih =>
    intro ns c
    rw [List.foldl_cons]
    by_cases hs : sendOk d.id = true
    · by_cases hm : markOk d.id = true
      · have hok : dispatchOk sendOk markOk d = true := by
          unfold dispatchOk; simp [hs, hm]
        have hstep : dispatchStep now sendOk markOk (ns, c) d.id
            = (markNotificationAsSent now d.id ns, c + 1) := by
          unfold dispatchStep; simp [hs, hm]
        rw [hstep, ih, List.filter_cons_of_pos hok]
        simp only [Prod.mk.injEq]
        refine ⟨?_, by simp; omega⟩
        simp only [markNotificationAsSent_eq_map, List.map_map]
        refine List.map_congr_left (fun m _ => ?_)
        simp only [Function.comp_apply]
        by_cases hid : m.id = d.id
        · simp [List.any_cons, hid, setSent_id, setSent_idem]
        · have hne : (d.id == m.id) = false := by
            simp only [beq_eq_false_iff_ne, ne_eq]
            exact fun hc => hid hc.symm
          simp [List.any_cons, hid, hne]
      · have hok : dispatchOk sendOk markOk d = false := by
          unfold dispatchOk; simp [hm]
        have hstep : dispatchStep now sendOk markOk (ns, c) d.id = (ns, c) := by
          unfold dispatchStep; simp [hs, hm]
        rw [hstep, ih, List.filter_cons_of_neg (by simp [hok])]
    · have hok : dispatchOk sendOk markOk d = false := by
        unfold dispatchOk; simp [hs]
      have hstep : dispatchStep now sendOk markOk (ns, c) d.id = (ns, c) := by
        unfold dispatchStep; simp [hs]
      rw [hstep, ih, List.filter_cons_of_neg (by simp [hok])]

/-- Unconditional closed form of one dispatch iteration's resulting store:
a per-record map (so no record is ever dropped), marking the records whose id
occurs among the due-and-successful ones. -/
lemma runIteration_fst_char_any (now : Time) (sendOk markOk : Nat → Bool)
    (ns : List Notification) :
    (runNotificationSenderIteration now sendOk markOk ns).1
      = ns.map (fun m =>
          if ((getDueNotifications now ns).filter (dispatchOk sendOk markOk)).any
              (fun d => d.id == m.id)
          then setSent now m else m) := by
  unfold runNotificationSenderIteration
  by_cases he : (getDueNotifications now ns).isEmpty = true
  · have hd : getDueNotifications now ns = [] := List.isEmpty_iff.mp he
    rw [hd]
    simp
  · rw [if_neg he, dispatch_foldl_char]

/-- Under distinct ids (the table's primary key), one dispatch iteration
replaces each record by its marked version exactly when the record is due and
its send and mark calls succeed, and leaves it untouched otherwise. -/
lemma runIteration_fst_char (now : Time) (sendOk markOk : Nat → Bool)
    (ns : List Notification) (hnodup : (ns.map Notification.id).Nodup) :
    (runNotificationSenderIteration now sendOk markOk ns).1
      = ns.map (fun m =>
          if m.sent == some false && decide (m.scheduled_time ≤ now)
              && sendOk m.id && markOk m.id
          then setSent now m else m) := by
  rw [runIteration_fst_char_any]
  refine List.map_congr_left fun m hm => ?_
  have hcond :
      ((getDueNotifications now ns).filter (dispatchOk sendOk markOk)).any
          (fun d => d.id == m.id)
        = (m.sent == some false && decide (m.scheduled_time ≤ now)
            && sendOk m.id && markOk m.id) := by
    by_cases hc : (m.sent == some false && decide (m.scheduled_time ≤ now)
        && sendOk m.id && markOk m.id) = true
    · rw [hc]
      have h1 : (m.sent == some false && decide (m.scheduled_time ≤ now)) = true := by
        simp only [Bool.and_eq_true] at hc
        simp [hc.1.1]
      have h2 : dispatchOk sendOk markOk m = true := by
        simp only [Bool.and_eq_true] at hc
        unfold dispatchOk
        simp [hc.1.2, hc.2]
      refine List.any_eq_true.mpr ⟨m, ?_, by simp⟩
      exact List.mem_filter.mpr ⟨List.mem_filter.mpr ⟨hm, h1⟩, h2⟩
    · rw [Bool.not_eq_true] at hc
      rw [hc]
      rw [Bool.eq_false_iff]
      intro hany
      rcases List.any_eq_true.mp hany with ⟨d, hdmem, hdid⟩
      rcases List.mem_filter.mp hdmem with ⟨hddue, hdok⟩
      rcases List.mem_filter.mp hddue with ⟨hdns, hdpred⟩
      have hdm : d = m :=
        List.inj_on_of_nodup_map hnodup hdns hm (by simpa using hdid)
      subst hdm
      unfold dispatchOk at hdok
      rw [Bool.and_assoc, hdpred, hdok] at hc
      simp at hc
  rw [hcond]

/-! ## C7: daily trigger window -/

/-- C7: the daily trigger predicate (hour 0, 5-minute tolerance) holds exactly
when the UTC hour is 0 and the UTC minute is below 5; for every date it is
true at 00:00:00 and 00:04:59 and false at 00:05:00 and 23:59:59. -/
theorem C7_daily_window (d h m s : Nat) (hh : h < 24) (hm : m < 60) (hs : s < 60) :
    (isDailyTriggerWindow (mkTime d h m s) = true ↔ (h = 0 ∧ m < 5))
    ∧ isDailyTriggerWindow (mkTime d 0 0 0) = true
    ∧ isDailyTriggerWindow (mkTime d 0 4 59) = true
    ∧ isDailyTriggerWindow (mkTime d 0 5 0) = false
    ∧ isDailyTriggerWindow (mkTime d 23 59 59) = false := by
  unfold isDailyTriggerWindow
  rw [hourOf_mkTime d h m s hh hm hs, minuteOf_mkTime d h m s hh hm hs,
    hourOf_mkTime d 0 0 0, minuteOf_mkTime d 0 0 0,
    hourOf_mkTime d 0 4 59, minuteOf_mkTime d 0 4 59,
    hourOf_mkTime d 0 5 0, minuteOf_mkTime d 0 5 0,
    hourOf_mkTime d 23 59 59, minuteOf_mkTime d 23 59 59] <;> simp

/-- Witness for C7 at a concrete date/time (day 20000, 13:07:09 UTC). -/
theorem C7_daily_window_witness :
    (isDailyTriggerWindow (mkTime 20000 13 7 9) = true ↔ (13 = 0 ∧ 7 < 5))
    ∧ isDailyTriggerWindow (mkTime 20000 0 0 0) = true
    ∧ isDailyTriggerWindow (mkTime 20000 0 4 59) = true
    ∧ isDailyTriggerWindow (mkTime 20000 0 5 0) = false
    ∧ isDailyTriggerWindow (mkTime 20000 23 59 59) = false :=
  C7_daily_window 20000 13 7 9 (by decide) (by decide) (by decide)

/-- Recipient and kind of a notification row (for stating fan-out shapes). -/
def notifHeader (n : Notification) : Nat × String := (n.user_id, n.notification_type)

/-- The effective enqueue condition of the daily reminder fan-out: both
settings flags set AND positive (pre-reset) charges. -/
def dailyReminderCond (settings : Nat → UserNotificationSettings) (u : User) : Bool :=
  (settings u.user_id).enabled && (settings u.user_id).daily_reminders
    && decide (0 < u.charges)

lemma find_self_of_nodup (users : List User)
    (hn : (users.map User.user_id).Nodup) (u : User) (hu : u ∈ users) :
    users.find? (fun v => v.user_id == u.user_id) = some u := by
  induction users with
  | nil => cases hu
  | cons w rest ih =>
    rw [List.map_cons, List.nodup_cons] at hn
    rcases List.mem_cons.mp hu with h | h
    · subst h
      rw [List.find?_cons_of_pos _ (by simp)]
    · have hne : (w.user_id == u.user_id) = false := by
        simp only [beq_eq_false_iff_ne, ne_eq]
        intro he
        refine hn.1 ?_
        rw [he]
        exact List.mem_map_of_mem User.user_id h
      have hskip : List.find? (fun v => v.user_id == u.user_id) (w :: rest)
          = List.find? (fun v => v.user_id == u.user_id) rest := by
        simp [List.find?_cons, hne]
      rw [hskip]
      exact ih hn.2 h

/-- Closed form of a fold that conditionally enqueues one notification per
user: the store's (recipient, kind) headers grow by exactly the filtered
users, one row each, in order. -/
lemma foldl_schedule_char (now : Time) (ntype : String) (cond : User → Bool)
    (msg : User → String) (title : User → Option String) (dm : Nat) :
    ∀ (l : List User) (st : NotifStore),
    ((l.foldl (fun acc u =>
        if cond u then
          scheduleNotification now acc u.user_id ntype (msg u) (title u) dm
        else acc) st).notifications.map notifHeader)
      = st.notifications.map notifHeader
        ++ (l.filter cond).map (fun u => (u.user_id, ntype)) := by
  intro l
  induction l with
  | nil => intro st; simp
  | cons u rest ih =>
    intro st
    rw [List.foldl_cons]
    by_cases hc : cond u = true
    · rw [if_pos hc, ih, List.filter_cons_of_pos hc]
      unfold scheduleNotification notifHeader
      simp
    · rw [if_neg (by simp [hc]), ih,
        List.filter_cons_of_neg (by simp [Bool.not_eq_true] at hc ⊢; exact hc)]

/-- The per-user step of `_send_daily_reminders_to_all` collapses, given that
the user lookup finds the row itself, to a single conditional enqueue guarded
by `dailyReminderCond` (the outer settings check and the re-check inside
`send_daily_reminder` coincide). -/
lemma daily_step_char (now : Time) (settings : Nat → UserNotificationSettings)
    (users : List User) (u : User) (st : NotifStore)
    (hfind : users.find? (fun v => v.user_id == u.user_id) = some u) :
    (let s := settings u.user_id
     if !s.enabled || !s.daily_reminders then st
     else sendDailyReminder now settings users st u.user_id)
      = if dailyReminderCond settings u then
          scheduleNotification now st u.user_id "daily_reminder"
            (dailyReminderMessage u) (some "Напоминание о миссии") 0
        else st := by
  by_cases he : (settings u.user_id).enabled
    <;> by_cases hd : (settings u.user_id).daily_reminders
    <;> by_cases hc : 0 < u.charges
    <;> simp [sendDailyReminder, dailyReminderCond, hfind, he, hd, hc]

/-- Closed form of the whole daily-reminder fan-out under distinct user ids. -/
lemma sendDailyRemindersToAll_char (now : Time)
    (settings : Nat → UserNotificationSettings) (users : List User)
    (st : NotifStore) (hnodup : (users.map User.user_id).Nodup) :
    (sendDailyRemindersToAll now settings users st).notifications.map notifHeader
      = st.notifications.map notifHeader
        ++ (users.filter (dailyReminderCond settings)).map
            (fun u => (u.user_id, "daily_reminder")) := by
  unfold sendDailyRemindersToAll
  rw [List.foldl_ext _ (fun acc u =>
      if dailyReminderCond settings u then
        scheduleNotification now acc u.user_id "daily_reminder"
          (dailyReminderMessage u) (some "Напоминание о миссии") 0
      else acc) st
    (fun acc u hu => daily_step_char now settings users u acc
      (find_self_of_nodup users hnodup u hu))]
  exact foldl_schedule_char now "daily_reminder" (dailyReminderCond settings)
    dailyReminderMessage (fun _ => some "Напоминание о миссии") 0 users st

/-! ## C2: dispatch outcome dichotomy -/

/-- C2: for every record with `sent=false` and `scheduled_time <= now`, one
dispatch iteration ends in exactly one of two outcomes.  First conjunct (with
the mark-as-sent write never failing, the fault model of the claim): the
result is a per-record map sending each due record to its marked version
(`sent=true`, `sent_at` set) exactly when its sender call succeeds and
leaving it exactly unchanged when the sender call fails.  Second conjunct:
even when mark writes may also fail, the result is still such a map — so no
record ever disappears or reaches a third state. -/
theorem C2_dispatch_dichotomy (now : Time) (sendOk markOk : Nat → Bool)
    (ns : List Notification) (hnodup : (ns.map Notification.id).Nodup) :
    (runNotificationSenderIteration now sendOk (fun _ => true) ns).1
      = ns.map (fun m =>
          if m.sent == some false && decide (m.scheduled_time ≤ now) && sendOk m.id
          then setSent now m else m)
    ∧ (runNotificationSenderIteration now sendOk markOk ns).1
      = ns.map (fun m =>
          if m.sent == some false && decide (m.scheduled_time ≤ now)
              && sendOk m.id && markOk m.id
          then setSent now m else m) := by
  constructor
  · rw [runIteration_fst_char now sendOk (fun _ => true) ns hnodup]
    exact List.map_congr_left fun m _ => by simp
  · exact runIteration_fst_char now sendOk markOk ns hnodup

/-- Witness for C2 on a two-row store: id 1 is due and its send succeeds,
id 2 is due but its send fails. -/
theorem C2_dispatch_dichotomy_witness :
    (runNotificationSenderIteration 100 (fun i => i == 1) (fun _ => true)
        [{ id := 1, user_id := 7, notification_type := "test", title := none,
           message := "a", scheduled_time := 50, sent := some false, sent_at := none },
         { id := 2, user_id := 8, notification_type := "test", title := none,
           message := "b", scheduled_time := 60, sent := some false, sent_at := none }]).1
      = [{ id := 1, user_id := 7, notification_type := "test", title := none,
           message := "a", scheduled_time := 50, sent := some false, sent_at := none },
         { id := 2, user_id := 8, notification_type := "test", title := none,
           message := "b", scheduled_time := 60, sent := some false, sent_at := none }].map
          (fun m =>
            if m.sent == some false && decide (m.scheduled_time ≤ 100) && (m.id == 1)
            then setSent 100 m else m) :=
  (C2_dispatch_dichotomy 100 (fun i => i == 1) (fun _ => true)
    [{ id := 1, user_id := 7, notification_type := "test", title := none,
       message := "a", scheduled_time := 50, sent := some false, sent_at := none },
     { id := 2, user_id := 8, notification_type := "test", title := none,
       message := "b", scheduled_time := 60, sent := some false, sent_at := none }]
    (by decide)).1

/-! ## C3: commit batching and mark-failure isolation -/

/-- C3 counterexample: a batch of two due notifications whose sends and marks
all succeed produces THREE store commits in one iteration (one inside
`mark_notification_as_sent` per notification, plus the final batch commit),
not exactly one. -/
theorem C3_counterexample :
    (runNotificationSenderIteration 100 (fun _ => true) (fun _ => true)
        [{ id := 1, user_id := 7, notification_type := "test", title := none,
           message := "a", scheduled_time := 50, sent := some false, sent_at := none },
         { id := 2, user_id := 8, notification_type := "test", title := none,
           message := "b", scheduled_time := 60, sent := some false, sent_at := none }]).2
      = 3 ∧ (3 : Nat) ≠ 1 := by
  constructor
  · decide
  · decide

/-- C3 amended: `mark_notification_as_sent` itself commits, so one iteration
commits once per successfully marked notification plus one final batch commit
when the due list is non-empty; and a mark failure on one notification does
not prevent any other due notification whose send and mark succeed from being
marked sent. -/
theorem C3_amended (now : Time) (sendOk markOk : Nat → Bool)
    (ns : List Notification) (hnodup : (ns.map Notification.id).Nodup) :
    (runNotificationSenderIteration now sendOk markOk ns).2
      = ((getDueNotifications now ns).filter (dispatchOk sendOk markOk)).length
        + (if (getDueNotifications now ns).isEmpty then 0 else 1)
    ∧ ∀ n ∈ ns, n.sent = some false → n.scheduled_time ≤ now →
        sendOk n.id = true → markOk n.id = true →
        setSent now n ∈ (runNotificationSenderIteration now sendOk markOk ns).1 := by
  constructor
  · unfold runNotificationSenderIteration
    by_cases he : (getDueNotifications now ns).isEmpty = true
    · have hd : getDueNotifications now ns = [] := List.isEmpty_iff.mp he
      rw [hd]
      simp
    · rw [if_neg he, dispatch_foldl_char]
      simp [he]
  · intro n hn hsent htime hsend hmark
    rw [runIteration_fst_char now sendOk markOk ns hnodup]
    have hcond : (n.sent == some false && decide (n.scheduled_time ≤ now)
        && sendOk n.id && markOk n.id) = true := by
      simp [hsent, htime, hsend, hmark]
    have := List.mem_map_of_mem (fun m =>
        if m.sent == some false && decide (m.scheduled_time ≤ now)
            && sendOk m.id && markOk m.id
        then setSent now m else m) hn
    simpa [hcond] using this

/-- Witness for C3 amended: id 1's mark fails, id 2's send and mark succeed;
the per-notification counting applies and id 2 is still marked. -/
theorem C3_amended_witness :
    ((runNotificationSenderIteration 100 (fun _ => true) (fun i => i == 2)
        [{ id := 1, user_id := 7, notification_type := "test", title := none,
           message := "a", scheduled_time := 50, sent := some false, sent_at := none },
         { id := 2, user_id := 8, notification_type := "test", title := none,
           message := "b", scheduled_time := 60, sent := some false, sent_at := none }]).2
      = ((getDueNotifications 100
            [{ id := 1, user_id := 7, notification_type := "test", title := none,
               message := "a", scheduled_time := 50, sent := some false, sent_at := none },
             { id := 2, user_id := 8, notification_type := "test", title := none,
               message := "b", scheduled_time := 60, sent := some false, sent_at := none }]).filter
            (dispatchOk (fun _ => true) (fun i => i == 2))).length
        + (if (getDueNotifications 100
            [{ id := 1, user_id := 7, notification_type := "test", title := none,
               message := "a", scheduled_time := 50, sent := some false, sent_at := none },
             { id := 2, user_id := 8, notification_type := "test", title := none,
               message := "b", scheduled_time := 60, sent := some false, sent_at := none }]).isEmpty
           then 0 else 1))
    ∧ setSent 100 { id := 2, user_id := 8, notification_type := "test", title := none,
                    message := "b", scheduled_time := 60, sent := some false, sent_at := none }
        ∈ (runNotificationSenderIteration 100 (fun _ => true) (fun i => i == 2)
            [{ id := 1, user_id := 7, notification_type := "test", title := none,
               message := "a", scheduled_time := 50, sent := some false, sent_at := none },
             { id := 2, user_id := 8, notification_type := "test", title := none,
               message := "b", scheduled_time := 60, sent := some false, sent_at := none }]).1 := by
  have h := C3_amended 100 (fun _ => true) (fun i => i == 2)
    [{ id := 1, user_id := 7, notification_type := "test", title := none,
       message := "a", scheduled_time := 50, sent := some false, sent_at := none },
     { id := 2, user_id := 8, notification_type := "test", title := none,
       message := "b", scheduled_time := 60, sent := some false, sent_at := none }]
    (by decide)
  refine ⟨h.1, ?_⟩
  refine h.2 _ (by simp) rfl (by decide) (by decide) (by decide)

/-! ## C9: sent ⇒ sent_at invariant -/

/-- The data-model invariant of `models/notification.py`:
`sent == true ⇒ sent_at != null`. -/
def SentInvariant (ns : List Notification) : Prop :=
  ∀ n ∈ ns, n.sent = some true → n.sent_at ≠ none

instance (ns : List Notification) : Decidable (SentInvariant ns) := by
  unfold SentInvariant; infer_instance

/-- C9: every engine operation that creates or mutates notification records
preserves `sent == true ⇒ sent_at != null`: `schedule_notification` inserts
the row with `sent=false`, `sent_at=NULL`; `mark_notification_as_sent` (alone
or inside a full dispatch iteration, whatever the send/mark failure pattern)
sets `sent=true` and `sent_at` in the same write; the retention cleanup only
moves `sent` from `true` to NULL. -/
theorem C9_sent_invariant (now old_date : Time) (st : NotifStore) (uid : Nat)
    (ntype msg : String) (title : Option String) (dm : Nat) (nid : Nat)
    (sendOk markOk : Nat → Bool)
    (hinv : SentInvariant st.notifications) :
    SentInvariant (scheduleNotification now st uid ntype msg title dm).notifications
    ∧ SentInvariant (markNotificationAsSent now nid st.notifications)
    ∧ SentInvariant (runNotificationSenderIteration now sendOk markOk st.notifications).1
    ∧ SentInvariant (cleanupOldNotifications old_date st.notifications) := by
  refine ⟨?_, ?_, ?_, ?_⟩
  · intro n hn hsent
    unfold scheduleNotification at hn
    simp only [List.mem_append, List.mem_singleton] at hn
    rcases hn with hn | hn
    · exact hinv n hn hsent
    · rw [hn] at hsent
      simp at hsent
  · intro n hn hsent
    rw [markNotificationAsSent_eq_map] at hn
    rcases List.mem_map.mp hn with ⟨m, hm, hmn⟩
    by_cases hid : m.id = nid
    · rw [← hmn, if_pos hid]
      unfold setSent
      simp
    · rw [if_neg hid] at hmn
      exact hinv n (hmn ▸ hm) hsent
  · intro n hn hsent
    rw [runIteration_fst_char_any] at hn
    rcases List.mem_map.mp hn with ⟨m, hm, hmn⟩
    by_cases hc : ((getDueNotifications now st.notifications).filter
        (dispatchOk sendOk markOk)).any (fun d => d.id == m.id) = true
    · rw [if_pos hc] at hmn
      rw [← hmn]
      unfold setSent
      simp
    · rw [Bool.not_eq_true] at hc
      rw [hc] at hmn
      simp only [Bool.false_eq_true, if_false] at hmn
      exact hinv n (hmn ▸ hm) hsent
  · intro n hn hsent
    unfold cleanupOldNotifications at hn
    rcases List.mem_map.mp hn with ⟨m, hm, hmn⟩
    by_cases hc : (m.sent == some true &&
        (match m.sent_at with
         | some t => decide (t ≤ old_date)
         | none => false)) = true
    · rw [if_pos hc] at hmn
      rw [← hmn] at hsent
      simp at hsent
    · rw [Bool.not_eq_true] at hc
      rw [hc] at hmn
      simp only [Bool.false_eq_true, if_false] at hmn
      exact hinv n (hmn ▸ hm) hsent

/-- Witness for C9 on a small store holding one sent and one pending row. -/
theorem C9_sent_invariant_witness :
    SentInvariant (scheduleNotification 100
        { notifications :=
            [{ id := 1, user_id := 7, notification_type := "test", title := none,
               message := "a", scheduled_time := 50, sent := some true, sent_at := some 60 },
             { id := 2, user_id := 8, notification_type := "test", title := none,
               message := "b", scheduled_time := 90, sent := some false, sent_at := none }],
          nextId := 3 } 9 "welcome" "hi" none 0).notifications
    ∧ SentInvariant (markNotificationAsSent 100 2
        [{ id := 1, user_id := 7, notification_type := "test", title := none,
           message := "a", scheduled_time := 50, sent := some true, sent_at := some 60 },
         { id := 2, user_id := 8, notification_type := "test", title := none,
           message := "b", scheduled_time := 90, sent := some false, sent_at := none }])
    ∧ SentInvariant (runNotificationSenderIteration 100 (fun _ => true) (fun _ => true)
        [{ id := 1, user_id := 7, notification_type := "test", title := none,
           message := "a", scheduled_time := 50, sent := some true, sent_at := some 60 },
         { id := 2, user_id := 8, notification_type := "test", title := none,
           message := "b", scheduled_time := 90, sent := some false, sent_at := none }]).1
    ∧ SentInvariant (cleanupOldNotifications 80
        [{ id := 1, user_id := 7, notification_type := "test", title := none,
           message := "a", scheduled_time := 50, sent := some true, sent_at := some 60 },
         { id := 2, user_id := 8, notification_type := "test", title := none,
           message := "b", scheduled_time := 90, sent := some false, sent_at := none }]) :=
  C9_sent_invariant 100 80
    { notifications :=
        [{ id := 1, user_id := 7, notification_type := "test", title := none,
           message := "a", scheduled_time := 50, sent := some true, sent_at := some 60 },
         { id := 2, user_id := 8, notification_type := "test", title := none,
           message := "b", scheduled_time := 90, sent := some false, sent_at := none }],
      nextId := 3 } 9 "welcome" "hi" none 0 2 (fun _ => true) (fun _ => true)
    (by decide)

/-! ## C1: daily reset idempotence -/

/-- C1 counterexample: running `_reset_charges_for_all` a second time on the
same UTC day (one minute later) changes `last_charge_reset`, so
`reset(reset(s)) ≠ reset(s)` even within one calendar day: the claimed
idempotence fails on the unconditional timestamp write. -/
theorem C1_counterexample :
    sameDay 0 60 ∧
    resetChargesForAll 60 (resetChargesForAll 0 [{ user_id := 1, charges := 0, level := 1, last_charge_reset := 0 }])
      ≠ resetChargesForAll 0 [{ user_id := 1, charges := 0, level := 1, last_charge_reset := 0 }] := by
  constructor
  · decide
  · decide

/-- C1 amended: a second reset on the same UTC day leaves every user's
`charges` unchanged (both writes set 3) and leaves the UTC calendar day of
`last_charge_reset` unchanged, but it restamps `last_charge_reset` to the
second call's instant, so the state itself is not a fixpoint. -/
theorem C1_amended (t1 t2 : Time) (users : List User) (h : sameDay t1 t2) :
    (resetChargesForAll t2 (resetChargesForAll t1 users)).map User.charges
      = (resetChargesForAll t1 users).map User.charges
    ∧ (resetChargesForAll t2 (resetChargesForAll t1 users)).map
        (fun u => dayOf u.last_charge_reset)
      = (resetChargesForAll t1 users).map (fun u => dayOf u.last_charge_reset) := by
  unfold resetChargesForAll
  unfold sameDay at h
  simp [List.map_map, Function.comp]
  exact fun a _ => h.symm

/-- Witness for C1 amended at `t1 = 0`, `t2 = 60`, one user. -/
theorem C1_amended_witness :
    (resetChargesForAll 60 (resetChargesForAll 0 [{ user_id := 1, charges := 0, level := 1, last_charge_reset := 0 }])).map User.charges
      = (resetChargesForAll 0 [{ user_id := 1, charges := 0, level := 1, last_charge_reset := 0 }]).map User.charges
    ∧ (resetChargesForAll 60 (resetChargesForAll 0 [{ user_id := 1, charges := 0, level := 1, last_charge_reset := 0 }])).map
        (fun u => dayOf u.last_charge_reset)
      = (resetChargesForAll 0 [{ user_id := 1, charges := 0, level := 1, last_charge_reset := 0 }]).map
        (fun u => dayOf u.last_charge_reset) :=
  C1_amended 0 60 [{ user_id := 1, charges := 0, level := 1, last_charge_reset := 0 }] (by decide)

/-! ## C8: rendered delivery text -/

/-- C8 counterexample: a notification without a title is NOT rendered as the
body alone — the formatter substitutes the default title "Уведомление" and
bolds it. -/
theorem C8_counterexample :
    formatNotification { id := 1, user_id := 7, notification_type := "test",
                         title := none, message := "hello", scheduled_time := 0,
                         sent := some false, sent_at := none } ≠ "hello"
    ∧ formatNotification { id := 1, user_id := 7, notification_type := "test",
                           title := none, message := "hello", scheduled_time := 0,
                           sent := some false, sent_at := none }
      = "<b>Уведомление</b>\n\nhello" := by
  constructor
  · decide
  · decide

/-- C8 amended: with a present non-empty title the rendered text is the title
bolded, a blank line, then the body; with an absent (or empty) title the
fallback is not the body alone but the default title "Уведомление" bolded,
a blank line, then the body. -/
theorem C8_amended (n : Notification) :
    (∀ t, n.title = some t → t ≠ "" →
        formatNotification n = "<b>" ++ t ++ "</b>\n\n" ++ n.message)
    ∧ (n.title = none →
        formatNotification n = "<b>" ++ "Уведомление" ++ "</b>\n\n" ++ n.message)
    ∧ (n.title = some "" →
        formatNotification n = "<b>" ++ "Уведомление" ++ "</b>\n\n" ++ n.message) := by
  refine ⟨?_, ?_, ?_⟩
  · intro t ht hne
    unfold formatNotification
    rw [ht]
    simp [hne]
  · intro ht
    unfold formatNotification
    rw [ht]
  · intro ht
    unfold formatNotification
    rw [ht]
    simp

/-- Witness for C8 amended on a concretely titled notification. -/
theorem C8_amended_witness :
    formatNotification { id := 1, user_id := 7, notification_type := "test",
                         title := some "Hi", message := "hello", scheduled_time := 0,
                         sent := some false, sent_at := none }
      = "<b>" ++ "Hi" ++ "</b>\n\n" ++ "hello" :=
  (C8_amended { id := 1, user_id := 7, notification_type := "test",
                title := some "Hi", message := "hello", scheduled_time := 0,
                sent := some false, sent_at := none }).1 "Hi" rfl (by decide)


/-! ## Concrete fixtures used by the witnesses -/

/-- Settings row with every flag enabled (the table's defaults). -/
def settingsAllOn : Nat → UserNotificationSettings :=
  fun _ => { enabled := true, daily_reminders := true, weekly_stats := true,
             mission_notifications := true, pair_notifications := true }

/-- Settings map where user 8 has notifications disabled. -/
def settingsOffFor8 : Nat → UserNotificationSettings :=
  fun uid => if uid == 8 then
    { enabled := false, daily_reminders := true, weekly_stats := true,
      mission_notifications := true, pair_notifications := true }
  else settingsAllOn uid

/-- A user who has spent all charges before midnight. -/
def userNoCharges : User :=
  { user_id := 7, charges := 0, level := 1, last_charge_reset := 0 }

/-- A user with charges remaining. -/
def userWithCharges : User :=
  { user_id := 8, charges := 2, level := 1, last_charge_reset := 0 }

/-- An empty notifications table. -/
def emptyStore : NotifStore := { notifications := [], nextId := 0 }

/-- A campaign active over `[0, 200]`. -/
def weekA : ThemeWeek :=
  { id := 1, theme_name := "A", description := none, start_date := 0,
    end_date := 200, tags := [], active := true }

/-- A campaign active over `[50, 300]`, overlapping `weekA`. -/
def weekB : ThemeWeek :=
  { id := 2, theme_name := "B", description := none, start_date := 50,
    end_date := 300, tags := [], active := true }

/-- Two users with distinct ids, one of each charge situation. -/
def sampleUsersC4 : List User := [userNoCharges, userWithCharges]

/-- Two fully charged users with distinct ids. -/
def sampleUsersC5 : List User :=
  [{ user_id := 7, charges := 3, level := 1, last_charge_reset := 0 },
   { user_id := 8, charges := 3, level := 1, last_charge_reset := 0 }]

/-! ## C4: daily reminder fan-out -/

/-- C4 counterexample: a user who opts into daily reminders (all flags
enabled) but has 0 charges at midnight receives NO reminder from the daily
unit of work — the fan-out runs before the reset and checks the pre-reset
`charges > 0`, so "every opted-in user receives a reminder" fails. -/
theorem C4_counterexample :
    (settingsAllOn 7).enabled = true
    ∧ (settingsAllOn 7).daily_reminders = true
    ∧ (runDailyTasksUnit 0 settingsAllOn [userNoCharges] emptyStore).2.notifications = [] :=
  ⟨rfl, rfl, rfl⟩

/-- C4 amended: the daily unit of work enqueues exactly one `daily_reminder`
notification for a user iff notifications are enabled, daily reminders are
opted into, AND the user's PRE-reset charges are positive (the fan-out runs
before `_reset_charges_for_all`, so an opted-in user with 0 charges gets
nothing); the reset itself then sets every user's charges to 3. -/
theorem C4_amended (now : Time) (settings : Nat → UserNotificationSettings)
    (users : List User) (st : NotifStore)
    (hnodup : (users.map User.user_id).Nodup) :
    ((runDailyTasksUnit now settings users st).2.notifications.map notifHeader
      = st.notifications.map notifHeader
        ++ (users.filter (dailyReminderCond settings)).map
            (fun u => (u.user_id, "daily_reminder")))
    ∧ (runDailyTasksUnit now settings users st).1
      = users.map (fun u => { u with charges := 3, last_charge_reset := now }) :=
  ⟨sendDailyRemindersToAll_char now settings users st hnodup, rfl⟩

/-- Witness for C4 amended: user 7 has 0 charges (no reminder), user 8 has
2 charges (one reminder). -/
theorem C4_amended_witness :
    ((runDailyTasksUnit 0 settingsAllOn sampleUsersC4 emptyStore).2.notifications.map notifHeader
      = emptyStore.notifications.map notifHeader
        ++ (sampleUsersC4.filter (dailyReminderCond settingsAllOn)).map
            (fun u => (u.user_id, "daily_reminder")))
    ∧ (runDailyTasksUnit 0 settingsAllOn sampleUsersC4 emptyStore).1
      = sampleUsersC4.map (fun u => { u with charges := 3, last_charge_reset := 0 }) :=
  C4_amended 0 settingsAllOn sampleUsersC4 emptyStore (by decide)

/-! ## C5: campaign-start broadcast -/

/-- C5: when the campaign-switch unit of work finds an active campaign, it
enqueues exactly one broadcast notification of source kind
`theme_week_start` (the spec's `campaign_start`) for every user whose
notification settings are enabled — one row per enabled user, in order; when
no campaign is active the unit leaves the store untouched (a no-op, not an
error). -/
theorem C5_campaign_broadcast (now : Time) (settings : Nat → UserNotificationSettings)
    (users : List User) (weeks : List ThemeWeek) (st : NotifStore) :
    (∀ w, findActiveThemeWeek now weeks = Except.ok (some w) →
      (runThemeWeekSwitchUnit now settings users weeks st).notifications.map notifHeader
        = st.notifications.map notifHeader
          ++ (users.filter (fun u => (settings u.user_id).enabled)).map
              (fun u => (u.user_id, "theme_week_start")))
    ∧ (findActiveThemeWeek now weeks = Except.ok none →
        runThemeWeekSwitchUnit now settings users weeks st = st) := by
  constructor
  · intro w hw
    have hred : runThemeWeekSwitchUnit now settings users weeks st
        = users.foldl (fun acc u =>
            if !(settings u.user_id).enabled then acc
            else scheduleNotification now acc u.user_id "theme_week_start"
              (themeWeekMessage w) (some ("🎨 " ++ w.theme_name)) 0) st := by
      unfold runThemeWeekSwitchUnit
      rw [hw]
    have hfold : users.foldl (fun acc u =>
          if !(settings u.user_id).enabled then acc
          else scheduleNotification now acc u.user_id "theme_week_start"
            (themeWeekMessage w) (some ("🎨 " ++ w.theme_name)) 0) st
        = users.foldl (fun acc u =>
            if (settings u.user_id).enabled then
              scheduleNotification now acc u.user_id "theme_week_start"
                (themeWeekMessage w) (some ("🎨 " ++ w.theme_name)) 0
            else acc) st :=
      List.foldl_ext _ _ st (fun acc u _ => by
        by_cases he : (settings u.user_id).enabled <;> simp [he])
    rw [hred, hfold]
    exact foldl_schedule_char now "theme_week_start"
      (fun u => (settings u.user_id).enabled) (fun _ => themeWeekMessage w)
      (fun _ => some ("🎨 " ++ w.theme_name)) 0 users st
  · intro hw
    unfold runThemeWeekSwitchUnit
    rw [hw]

/-- Witness for C5: one active week is broadcast to the enabled user 7 and
not to the disabled user 8, and an empty campaign table is a no-op. -/
theorem C5_campaign_broadcast_witness :
    ((runThemeWeekSwitchUnit 100 settingsOffFor8 sampleUsersC5 [weekA] emptyStore).notifications.map notifHeader
      = emptyStore.notifications.map notifHeader
        ++ (sampleUsersC5.filter (fun u => (settingsOffFor8 u.user_id).enabled)).map
            (fun u => (u.user_id, "theme_week_start")))
    ∧ runThemeWeekSwitchUnit 100 settingsOffFor8 sampleUsersC5 [] emptyStore = emptyStore :=
  ⟨(C5_campaign_broadcast 100 settingsOffFor8 sampleUsersC5 [weekA] emptyStore).1 weekA rfl,
   (C5_campaign_broadcast 100 settingsOffFor8 sampleUsersC5 [] emptyStore).2 rfl⟩

/-! ## C6: overlapping campaigns -/

/-- C6 counterexample: with two active campaigns whose windows overlap at
`now = 100`, the active-campaign lookup does NOT return the latest-starting
one without raising — `scalar_one_or_none()` raises `MultipleResultsFound`
(modelled as `Except.error`), and the iteration aborts, writing nothing. -/
theorem C6_counterexample :
    findActiveThemeWeek 100 [weekA, weekB] = Except.error ()
    ∧ runThemeWeekSwitchUnit 100 settingsAllOn sampleUsersC5 [weekA, weekB] emptyStore
      = emptyStore :=
  ⟨rfl, rfl⟩

/-- C6 amended: whenever two or more campaigns are simultaneously active at
`now`, the lookup raises (`MultipleResultsFound`, modelled as an error) and
the campaign-switch iteration, whose outer handler swallows the error,
enqueues nothing at all — so it never enqueues two simultaneous
`campaign_start` broadcasts to the same user, but it also selects no campaign
rather than the latest-starting one. -/
theorem C6_amended (now : Time) (settings : Nat → UserNotificationSettings)
    (users : List User) (weeks : List ThemeWeek) (st : NotifStore)
    (hw : 2 ≤ (weeks.filter (fun w =>
        w.active && decide (w.start_date ≤ now) && decide (now ≤ w.end_date))).length) :
    findActiveThemeWeek now weeks = Except.error ()
    ∧ runThemeWeekSwitchUnit now settings users weeks st = st := by
  have herr : findActiveThemeWeek now weeks = Except.error () := by
    rcases hl : weeks.filter (fun w =>
        w.active && decide (w.start_date ≤ now) && decide (now ≤ w.end_date))
      with _ | ⟨a, _ | ⟨b, l⟩⟩
    · rw [hl] at hw; simp at hw
    · rw [hl] at hw; simp at hw
    · unfold findActiveThemeWeek
      rw [hl]
  refine ⟨herr, ?_⟩
  unfold runThemeWeekSwitchUnit
  rw [herr]

/-- Witness for C6 amended at the concrete overlapping pair of campaigns. -/
theorem C6_amended_witness :
    findActiveThemeWeek 100 [weekA, weekB] = Except.error ()
    ∧ runThemeWeekSwitchUnit 100 settingsOffFor8 sampleUsersC4 [weekA, weekB]
        { notifications := [], nextId := 5 }
      = { notifications := [], nextId := 5 } :=
  C6_amended 100 settingsOffFor8 sampleUsersC4 [weekA, weekB]
    { notifications := [], nextId := 5 } (by decide)

/-! ## C10: weekly runner starvation -/

lemma weeklyWindow_false_of_offset (t : Nat) (h : 300 ≤ t % 3600) :
    isWeeklyTriggerWindow t = false := by
  have hmin : ¬ (minuteOf t < 5) := by
    unfold minuteOf; omega
  unfold isWeeklyTriggerWindow
  simp [hmin]

lemma weekly_iter_miss (settings : Nat → UserNotificationSettings)
    (weekCompleted : Nat → Nat) (users : List User) :
    ∀ (n : Nat) (t0 : Nat) (st : NotifStore), 300 ≤ t0 % 3600 →
    runWeeklyTasksIter settings weekCompleted users n (t0, st) = (t0 + 3600 * n, st)
  | 0, t0, st, _ => by simp [runWeeklyTasksIter]
  | n + 1, t0, st, h => by
    have hw := weeklyWindow_false_of_offset t0 h
    have harith : t0 + 3600 + 3600 * n = t0 + 3600 * (n + 1) := by ring
    have ih := weekly_iter_miss settings weekCompleted users n (t0 + 3600) st (by omega)
    unfold runWeeklyTasksIter runWeeklyTasksStep
    simp only [hw, Bool.false_eq_true, if_false]
    rw [ih, harith]

/-- C10: the weekly runner sleeps 3600 s after every unsuccessful check while
its window lasts 5 minutes; for any check phase at least 5 minutes past the
hour (`t0 % 3600 ≥ 300`), every subsequent check also lands at that phase,
no check ever satisfies the weekly trigger window, and no `weekly_stats`
notification is ever enqueued — the store after any number of checks (a week
is 168) is exactly the initial store. -/
theorem C10_weekly_starvation (settings : Nat → UserNotificationSettings)
    (weekCompleted : Nat → Nat) (users : List User) (t0 : Nat) (st : NotifStore)
    (h : 300 ≤ t0 % 3600) (n : Nat) :
    runWeeklyTasksIter settings weekCompleted users n (t0, st) = (t0 + 3600 * n, st)
    ∧ isWeeklyTriggerWindow (t0 + 3600 * n) = false := by
  refine ⟨weekly_iter_miss settings weekCompleted users n t0 st h, ?_⟩
  exact weeklyWindow_false_of_offset (t0 + 3600 * n) (by omega)

/-- Witness for C10: checks starting 10 minutes past the hour miss the window
for a whole week of hourly checks (168 of them). -/
theorem C10_weekly_starvation_witness :
    runWeeklyTasksIter settingsAllOn (fun _ => 0) [] 168 (600, emptyStore)
      = (600 + 3600 * 168, emptyStore)
    ∧ isWeeklyTriggerWindow (600 + 3600 * 168) = false :=
  C10_weekly_starvation settingsAllOn (fun _ => 0) [] 600 emptyStore (by decide) 168

end Missions
